import Mathlib

/-!
Shallow embedding of the livestream analytics tracker (`src/tracker.py`)
and proofs about its discovery loop, history window, persistence sinks,
table provisioning and API adapters.

External effects are made explicit: the outcome of each external API call
or database write is an argument (`Except` for fallible calls), files and
tables are explicit state values, and each source function becomes a pure
state-passing function over them.
-/

namespace Tracker

/-- One entry of the in-memory `history` list for one video:
`(collected_at, concurrent_viewers, like_count, comment_count)`
(tracker.py line 58 and lines 410-415). -/
structure Sample where
  ts : String
  viewers : Nat
  likes : Nat
  comments : Nat
deriving DecidableEq

/-- The append-then-evict step of `collect_and_store` on one video's history
(tracker.py lines 410-417): `history[video_id].append(...)` followed by
`if len(history[video_id]) > MAX_HISTORY_POINTS: history[video_id].pop(0)`.
`maxPoints` is `MAX_HISTORY_POINTS`. -/
def appendHistory (maxPoints : Nat) (h : List Sample) (s : Sample) : List Sample :=
  if maxPoints < (h ++ [s]).length then (h ++ [s]).tail else h ++ [s]

/-- The per-stream dict built by `find_live_videos` (tracker.py lines 280-286)
and later extended in place by `collect_and_store` via `stream.update(analytics)`
and `stream["collected_at"] = ...` (lines 407-408). Keys the dict does not yet
hold are `none`. -/
structure Stream where
  video_id : String
  channel_id : String
  channel_name : String
  video_title : String
  stream_status : String
  concurrent_viewers : Option Nat := none
  like_count : Option Nat := none
  comment_count : Option Nat := none
  scheduled_start : Option String := none
  actual_start : Option String := none
  collected_at : Option String := none
deriving DecidableEq

/-- `CSV_FIELDS` (tracker.py lines 222-226): the fixed flat-log column order. -/
def CSV_FIELDS : List String :=
  ["collected_at", "channel_id", "channel_name", "video_id", "video_title",
   "concurrent_viewers", "like_count", "comment_count", "stream_status",
   "scheduled_start", "actual_start"]

/-- `{k: row.get(k) for k in CSV_FIELDS}` (tracker.py line 235): the row's
values listed in `CSV_FIELDS` order; numeric fields are rendered as text. -/
def csvFieldValues (s : Stream) : List (Option String) :=
  [s.collected_at, some s.channel_id, some s.channel_name, some s.video_id,
   some s.video_title, s.concurrent_viewers.map toString,
   s.like_count.map toString, s.comment_count.map toString,
   some s.stream_status, s.scheduled_start, s.actual_start]

/-- One line of the flat log at `CSV_OUTPUT_PATH`. -/
inductive CsvLine where
  | header
  | row (values : List (Option String))
deriving DecidableEq

/-- The flat-log file; `none` means no file exists at `CSV_OUTPUT_PATH`. -/
abbrev CsvFile := Option (List CsvLine)

/-- `save_to_csv` (tracker.py lines 229-235): `write_header` is the
file-existence check at line 230; opening in mode `"a"` creates the file,
writes the header iff the file was absent, then appends one row in
`CSV_FIELDS` order. -/
def save_to_csv (file : CsvFile) (s : Stream) : CsvFile :=
  match file with
  | none => some [CsvLine.header, CsvLine.row (csvFieldValues s)]
  | some lines => some (lines ++ [CsvLine.row (csvFieldValues s)])

/-- Errors raised by external calls (`googleapiclient.errors.HttpError`
carries a message; only its presence matters here). -/
abbrev ApiError := String

/-- The `statistics` part of a `videos().list` response item. Absent keys
are `none` (`stats.get("likeCount", 0)` at tracker.py lines 309-310). -/
structure VideoStats where
  likeCount : Option Nat := none
  commentCount : Option Nat := none
deriving DecidableEq

/-- The `liveStreamingDetails` part of a `videos().list` response item
(tracker.py lines 306, 308, 311-312). -/
structure LiveDetails where
  concurrentViewers : Option Nat := none
  scheduledStartTime : Option String := none
  actualStartTime : Option String := none
deriving DecidableEq

/-- One item of a `videos().list` response: the `snippet`, `statistics`
and `liveStreamingDetails` keys read by the tracker. -/
structure VideoItem where
  liveBroadcastContent : String := "none"
  channelTitle : String := ""
  title : String := ""
  statistics : VideoStats := {}
  liveStreamingDetails : LiveDetails := {}
deriving DecidableEq

/-- The dict returned by `get_video_analytics` on success
(tracker.py lines 307-313). -/
structure Analytics where
  concurrent_viewers : Nat
  like_count : Nat
  comment_count : Nat
  scheduled_start : Option String
  actual_start : Option String
deriving DecidableEq

/-- `get_video_analytics` (tracker.py lines 294-316), with the outcome of
`videos().list(...).execute()` passed in as `resp` (`.error` models a raised
`HttpError`, caught at line 314 returning `None`; `.ok items` the parsed
response). Numeric fields default to 0 when the key is absent
(`int(live.get("concurrentViewers", 0) or 0)` and friends). -/
def get_video_analytics (resp : Except ApiError (List VideoItem)) :
    Option Analytics :=
  match resp with
  | .error _ => none
  | .ok [] => none
  | .ok (item :: _) =>
    some { concurrent_viewers := item.liveStreamingDetails.concurrentViewers.getD 0
           like_count := item.statistics.likeCount.getD 0
           comment_count := item.statistics.commentCount.getD 0
           scheduled_start := item.liveStreamingDetails.scheduledStartTime
           actual_start := item.liveStreamingDetails.actualStartTime }

/-- State touched by one `collect_and_store` call for one video: that video's
history list, the flat-log file, the rows of the channel's analytics table,
and counters for logged DB errors (line 424) and attempted DB inserts. -/
structure PersistState where
  history : List Sample
  csvFile : CsvFile
  dbRows : List (List (Option String))
  dbErrorsLogged : Nat
  dbInsertAttempts : Nat
deriving DecidableEq

/-- `collect_and_store` (tracker.py lines 401-428). `analytics` is the value
`get_video_analytics(video_id)` returned; `now` the timestamp taken at line
408; `hasConn` mirrors `if conn:` (line 420); `dbResult` the outcome the
`save_to_db` insert has when attempted (`.error` models a raised exception,
caught and logged at lines 423-424). Returns the updated stream dict and
state; the dashboard regeneration calls at lines 427-428 touch none of this
state. -/
def collect_and_store (maxPoints : Nat) (stream : Stream)
    (analytics : Option Analytics) (now : String) (hasConn : Bool)
    (dbResult : Except ApiError Unit) (st : PersistState) :
    Stream × PersistState :=
  match analytics with
  | none => (stream, st)
  | some a =>
    let stream' : Stream :=
      { stream with
        concurrent_viewers := some a.concurrent_viewers
        like_count := some a.like_count
        comment_count := some a.comment_count
        scheduled_start := a.scheduled_start
        actual_start := a.actual_start
        collected_at := some now }
    let history' := appendHistory maxPoints st.history
      ⟨now, a.concurrent_viewers, a.like_count, a.comment_count⟩
    let csv' := save_to_csv st.csvFile stream'
    if hasConn then
      match dbResult with
      | .ok _ =>
        (stream', { history := history', csvFile := csv',
                    dbRows := st.dbRows ++ [csvFieldValues stream'],
                    dbErrorsLogged := st.dbErrorsLogged,
                    dbInsertAttempts := st.dbInsertAttempts + 1 })
      | .error _ =>
        (stream', { history := history', csvFile := csv',
                    dbRows := st.dbRows,
                    dbErrorsLogged := st.dbErrorsLogged + 1,
                    dbInsertAttempts := st.dbInsertAttempts + 1 })
    else
      (stream', { history := history', csvFile := csv',
                  dbRows := st.dbRows,
                  dbErrorsLogged := st.dbErrorsLogged,
                  dbInsertAttempts := st.dbInsertAttempts })

/-- `re.sub(r"[^a-z0-9]", "_", ·)` on one character (tracker.py line 80). -/
def sanitizeChar (c : Char) : Char :=
  if ('a' ≤ c ∧ c ≤ 'z') ∨ ('0' ≤ c ∧ c ≤ '9') then c else '_'

/-- `re.sub(r"_+", "_", ·)` (tracker.py line 82): collapse each run of
underscores to a single one. -/
def collapseUnderscores (cs : List Char) : List Char :=
  (cs.foldl (fun acc c =>
    if c = '_' ∧ acc.head? = some '_' then acc else c :: acc) []).reverse

/-- `.strip("_")` (tracker.py line 82). -/
def stripUnderscores (cs : List Char) : List Char :=
  ((cs.dropWhile (fun c => c = '_')).reverse.dropWhile (fun c => c = '_')).reverse

/-- The `safe` string of `get_table_name` (tracker.py lines 80-82):
lowercase, map every character outside `[a-z0-9]` to `_`, collapse runs of
`_`, strip leading and trailing `_`. (`Char.toLower` models `str.lower()`;
the following substitution maps every non-`[a-z0-9]` character to `_`, so
only the ASCII range is relevant to the result.) -/
def normalizedName (channel_name : String) : String :=
  String.mk (stripUnderscores (collapseUnderscores
    (channel_name.toList.map (fun c => sanitizeChar c.toLower))))

/-- `get_table_name` (tracker.py lines 76-83). -/
def get_table_name (channel_name : String) : String :=
  "stream_" ++ normalizedName channel_name

/-- One row of the master `channels` registry table (tracker.py lines 90-97). -/
structure ChannelRow where
  channel_id : String
  channel_name : String
  table_name : String
deriving DecidableEq

/-- The relational store visible to `init_channel_table`: the `channels`
registry rows, the names of existing analytics tables, and the names of
existing indexes. -/
structure Db where
  channels : List ChannelRow
  tables : List String
  indexes : List String
deriving DecidableEq

/-- `INSERT INTO channels ... ON CONFLICT (channel_id) DO UPDATE SET
channel_name = EXCLUDED.channel_name` (tracker.py lines 111-116): on
conflict only the display name changes; `table_name` keeps its old value. -/
def upsertChannel (rows : List ChannelRow) (cid nm tbl : String) :
    List ChannelRow :=
  if ∃ r ∈ rows, r.channel_id = cid then
    rows.map (fun r =>
      if r.channel_id = cid then { r with channel_name := nm } else r)
  else rows ++ [{ channel_id := cid, channel_name := nm, table_name := tbl }]

/-- `CREATE TABLE IF NOT EXISTS` / `CREATE INDEX IF NOT EXISTS`
(tracker.py lines 119-142): a no-op when the name already exists. -/
def createIfNotExists (existing : List String) (nm : String) : List String :=
  if nm ∈ existing then existing else existing ++ [nm]

/-- `init_channel_table` (tracker.py lines 102-145): derive the table name
from the channel display name, upsert the channel registry row, create the
channel's analytics table and its two indexes if absent, and return the
table name used. -/
def init_channel_table (db : Db) (channel_id channel_name : String) :
    Db × String :=
  ({ channels :=
       upsertChannel db.channels channel_id channel_name
         (get_table_name channel_name)
     tables := createIfNotExists db.tables (get_table_name channel_name)
     indexes :=
       createIfNotExists
         (createIfNotExists db.indexes
           ("idx_" ++ get_table_name channel_name ++ "_video_id"))
         ("idx_" ++ get_table_name channel_name ++ "_collected_at") },
   get_table_name channel_name)

/-- One item of an `activities().list` response: the tracker only reads
`contentDetails.upload.videoId`, absent for non-upload activities
(tracker.py lines 255-261). -/
structure ActivityItem where
  uploadVideoId : Option String := none
deriving DecidableEq

/-- The body of `find_live_videos`' for-loop (tracker.py lines 255-286), with
the outcome of each per-video `videos().list` call supplied by `videosOf`.
`results` is `acc`; a raised `HttpError` (`.error`) aborts the loop and the
surrounding handler (lines 288-289) returns the accumulated list. -/
def processItems (channel_id : String)
    (videosOf : String → Except ApiError (List VideoItem))
    (acc : List Stream) : List ActivityItem → List Stream
  | [] => acc
  | item :: rest =>
    match item.uploadVideoId with
    | none => processItems channel_id videosOf acc rest
    | some vid =>
      match videosOf vid with
      | .error _ => acc
      | .ok [] => processItems channel_id videosOf acc rest
      | .ok (v :: _) =>
        if v.liveBroadcastContent = "live" ∨ v.liveBroadcastContent = "upcoming" then
          processItems channel_id videosOf
            (acc ++ [{ video_id := vid, channel_id := channel_id,
                       channel_name := v.channelTitle, video_title := v.title,
                       stream_status := v.liveBroadcastContent }]) rest
        else
          processItems channel_id videosOf acc rest

/-- `find_live_videos` (tracker.py lines 242-291), with the outcome of the
`activities().list` call passed as `activities`; an `HttpError` raised
there leaves `results` empty. -/
def find_live_videos (channel_id : String)
    (activities : Except ApiError (List ActivityItem))
    (videosOf : String → Except ApiError (List VideoItem)) : List Stream :=
  match activities with
  | .error _ => []
  | .ok items => processItems channel_id videosOf [] items

/-- The `known_streams` / `discovered` dicts: insertion-ordered key-value
lists keyed by video_id. -/
abbrev Registry := List (String × Stream)

/-- The keys of such a dict. -/
def keys (d : Registry) : List String := d.map Prod.fst

/-- Python dict assignment `discovered[vid] = s` (tracker.py line 452):
replace the value if the key exists, else append (dicts keep insertion
order). -/
def dictInsert (d : Registry) (k : String) (v : Stream) : Registry :=
  if k ∈ keys d then d.map (fun p => if p.1 = k then (k, v) else p)
  else d ++ [(k, v)]

/-- One step of the scan loop (tracker.py lines 450-471), acting on the pair
(`discovered`, emitted new-stream events): insert the stream and announce it
when its video_id is not in the old `known_streams`. -/
def scanStep (known : Registry) (st : Registry × List String) (s : Stream) :
    Registry × List String :=
  (dictInsert st.1 s.video_id s,
   if s.video_id ∈ keys known then st.2 else st.2 ++ [s.video_id])

/-- Outcome of one discovery tick: the replaced registry, the video_ids
announced as new streams, and those logged as ended. -/
structure TickResult where
  registry : Registry
  newEvents : List String
  endedEvents : List String

/-- The discovery branch of `run`'s loop (tracker.py lines 447-475): build
`discovered` from the scan results, announce video_ids absent from
`known_streams`, log "Stream ended" for old video_ids absent from
`discovered`, then `known_streams = discovered`. `scanned` is the
concatenation of `find_live_videos(ch)` over `CHANNEL_IDS`. -/
def discoveryTick (known : Registry) (scanned : List Stream) : TickResult :=
  let acc := scanned.foldl (scanStep known) ([], [])
  { registry := acc.1
    newEvents := acc.2
    endedEvents := (keys known).filter (fun vid => decide (vid ∉ keys acc.1)) }

/-- The mutable state of `run`'s while-loop that one iteration can touch
(tracker.py lines 438-440 plus the sinks of `collect_and_store`). -/
structure LoopState where
  known : Registry
  channel_poll_counter : Nat
  history : List (String × List Sample)
  csvFile : CsvFile
  dbRows : List (List (Option String))

/-- One iteration of `run`'s `while _running:` body (tracker.py lines
445-506) as the source text parses. The file mixes tab and space
indentation; loading it raises `TabError` at line 446, and tab width 4 is
the only expansion under which the indentation is self-consistent. Under
that reading the loop body is the `try` block (discovery when the counter
is 0, lines 447-475, then the counter update, line 477) followed by an
unconditional `continue` at line 483, so the analytics section at lines
485-506 — the per-live-stream `collect_and_store` calls, rendering and
sleep — is unreachable and contributes nothing below. The non-exceptional
path of the `try` is modelled. -/
def loopTick (pollIntervalSec streamPollSec : Nat) (scanned : List Stream)
    (st : LoopState) : LoopState :=
  let st1 :=
    if st.channel_poll_counter = 0 then
      { st with known := (discoveryTick st.known scanned).registry }
    else st
  { st1 with channel_poll_counter :=
      (st1.channel_poll_counter + 1) % max 1 (pollIntervalSec / streamPollSec) }

/-! ## Helper lemmas -/

lemma appendHistory_length_le (cap : Nat) (h : List Sample) (s : Sample)
    (hh : h.length ≤ cap) : (appendHistory cap h s).length ≤ cap := by
  unfold appendHistory
  split
  · rw [List.length_tail]
    simp only [List.length_append, List.length_singleton]
    omega
  · rename_i hle
    simp only [List.length_append, List.length_singleton] at *
    omega

lemma foldl_appendHistory_length_le (cap : Nat) (seq : List Sample) :
    ∀ h : List Sample, h.length ≤ cap →
      (seq.foldl (appendHistory cap) h).length ≤ cap := by
  induction seq with
  | nil => intro h hh; simpa using hh
  | cons s rest ih =>
    intro h hh
    exact ih _ (appendHistory_length_le cap h s hh)

lemma foldl_save_to_csv_some (lines : List CsvLine) (ss : List Stream) :
    ss.foldl save_to_csv (some lines) =
      some (lines ++ ss.map (fun s => CsvLine.row (csvFieldValues s))) := by
  induction ss generalizing lines with
  | nil => simp
  | cons s rest ih =>
    simp [save_to_csv, ih]

/-! ## Claims -/

/-- C3: for every video and every sequence of appends, the History Window
never exceeds the configured capacity, and eviction is strict FIFO: at
capacity, one more append drops exactly the oldest sample; with capacity 2,
appending A, B, C leaves [B, C]. -/
theorem history_window_capacity_fifo :
    (∀ (cap : Nat) (seq : List Sample),
        (seq.foldl (appendHistory cap) []).length ≤ cap) ∧
    (∀ (cap : Nat) (h : List Sample) (s : Sample), h.length = cap → 0 < cap →
        appendHistory cap h s = h.tail ++ [s]) ∧
    (∀ A B C : Sample,
        appendHistory 2 (appendHistory 2 (appendHistory 2 [] A) B) C = [B, C]) := by
  refine ⟨?_, ?_, ?_⟩
  · intro cap seq
    exact foldl_appendHistory_length_le cap seq [] (by simp)
  · intro cap h s hlen hpos
    cases h with
    | nil => simp at hlen; omega
    | cons a t =>
      unfold appendHistory
      rw [if_pos]
      · simp
      · simp only [List.length_append, List.length_cons, List.length_singleton] at *
        omega
  · intro A B C
    rfl

/-- Witness for C3 at a concrete capacity-2 window. -/
theorem history_window_capacity_fifo_witness :
    appendHistory 2 [⟨"t1", 1, 1, 1⟩, ⟨"t2", 2, 2, 2⟩] ⟨"t3", 3, 3, 3⟩ =
      [⟨"t2", 2, 2, 2⟩, ⟨"t3", 3, 3, 3⟩] := by
  have h := history_window_capacity_fifo.2.1 2
    [⟨"t1", 1, 1, 1⟩, ⟨"t2", 2, 2, 2⟩] ⟨"t3", 3, 3, 3⟩ (by decide) (by decide)
  simpa using h

/-- C10: when `get_video_analytics` returns `None`, `collect_and_store` is a
complete no-op: the stream dict, the history window, the flat log, the
relational rows and all counters are unchanged (tracker.py lines 404-405
return before any effect). -/
theorem collect_and_store_noop_on_none :
    ∀ (maxPoints : Nat) (stream : Stream) (now : String) (hasConn : Bool)
      (dbResult : Except ApiError Unit) (st : PersistState),
      collect_and_store maxPoints stream none now hasConn dbResult st =
        (stream, st) := by
  intros
  rfl

/-- C5: a failing relational insert is logged and swallowed: the flat log
receives the row exactly as in the success case (the `save_to_csv` call at
line 419 precedes and is independent of the DB write), the history update is
unaffected, no relational row is written, exactly one error is logged, and
the insert is attempted exactly once (no retry). `collect_and_store` is a
total function of the insert outcome, so the failure never propagates out of
the persist step. -/
theorem db_failure_swallowed :
    ∀ (maxPoints : Nat) (stream : Stream) (a : Analytics) (now : String)
      (st : PersistState) (e : ApiError),
      (collect_and_store maxPoints stream (some a) now true (.error e) st).2.csvFile =
        (collect_and_store maxPoints stream (some a) now true (.ok ()) st).2.csvFile ∧
      (collect_and_store maxPoints stream (some a) now true (.error e) st).2.csvFile =
        save_to_csv st.csvFile
          (collect_and_store maxPoints stream (some a) now true (.error e) st).1 ∧
      (collect_and_store maxPoints stream (some a) now true (.error e) st).2.history =
        (collect_and_store maxPoints stream (some a) now true (.ok ()) st).2.history ∧
      (collect_and_store maxPoints stream (some a) now true (.error e) st).2.dbRows =
        st.dbRows ∧
      (collect_and_store maxPoints stream (some a) now true (.error e) st).2.dbErrorsLogged =
        st.dbErrorsLogged + 1 ∧
      (collect_and_store maxPoints stream (some a) now true (.error e) st).2.dbInsertAttempts =
        st.dbInsertAttempts + 1 := by
  intros
  exact ⟨rfl, rfl, rfl, rfl, rfl, rfl⟩

/-- C2 (code bug): as the source parses (see `loopTick`), every loop
iteration ends at the unconditional `continue` on line 483, so the analytics
section never runs: no history append, no flat-log write and no relational
row is ever produced on any tick — in particular a live stream with zero
prior samples still has zero samples after an analytics tick, not one. -/
theorem loopTick_skips_analytics :
    ∀ (pollIntervalSec streamPollSec : Nat) (scanned : List Stream)
      (st : LoopState),
      (loopTick pollIntervalSec streamPollSec scanned st).history = st.history ∧
      (loopTick pollIntervalSec streamPollSec scanned st).csvFile = st.csvFile ∧
      (loopTick pollIntervalSec streamPollSec scanned st).dbRows = st.dbRows := by
  intro pI sP scanned st
  by_cases hc : st.channel_poll_counter = 0 <;>
    simp [loopTick, hc]

/-- C8: starting from a missing file, any sequence of `save_to_csv` calls
(also across process runs: the header guard re-reads the file system, not
process state) yields the header exactly once, as the first line, followed by
exactly one row per call, in call order, each in `CSV_FIELDS` order. -/
theorem save_to_csv_header_once :
    ∀ streams : List Stream,
      streams.foldl save_to_csv none =
        if streams.isEmpty then none
        else some (CsvLine.header ::
          streams.map (fun s => CsvLine.row (csvFieldValues s))) := by
  intro streams
  cases streams with
  | nil => rfl
  | cons s rest =>
    simp [save_to_csv, foldl_save_to_csv_some]

lemma processItems_stops_at_error (ch : String)
    (videosOf : String → Except ApiError (List VideoItem))
    (item : ActivityItem) (post : List ActivityItem) (vid : String)
    (e : ApiError) (hupload : item.uploadVideoId = some vid)
    (herr : videosOf vid = .error e) :
    ∀ (pre : List ActivityItem) (acc : List Stream),
      processItems ch videosOf acc (pre ++ item :: post) =
        processItems ch videosOf acc pre := by
  intro pre
  induction pre with
  | nil =>
    intro acc
    simp [processItems, hupload, herr]
  | cons p ps ih =>
    intro acc
    simp only [List.cons_append]
    cases hp : p.uploadVideoId with
    | none =>
      simp only [processItems, hp]
      exact ih acc
    | some v =>
      cases hv : videosOf v with
      | error e' =>
        simp only [processItems, hp, hv]
      | ok items =>
        cases items with
        | nil =>
          simp only [processItems, hp, hv]
          exact ih acc
        | cons w ws =>
          simp only [processItems, hp, hv]
          split
          · exact ih _
          · exact ih acc

/-- C6: a raised `HttpError` inside `find_live_videos` never propagates: an
error on the `activities` listing yields the empty set, and an error on any
per-video confirmation lookup makes the scan return exactly the candidates
accumulated from the items before the failing one. -/
theorem find_live_videos_partial_on_error :
    (∀ (ch : String) (e : ApiError)
        (videosOf : String → Except ApiError (List VideoItem)),
        find_live_videos ch (.error e) videosOf = []) ∧
    (∀ (ch : String) (videosOf : String → Except ApiError (List VideoItem))
        (pre post : List ActivityItem) (item : ActivityItem) (vid : String)
        (e : ApiError),
        item.uploadVideoId = some vid → videosOf vid = .error e →
        find_live_videos ch (.ok (pre ++ item :: post)) videosOf =
          find_live_videos ch (.ok pre) videosOf) := by
  constructor
  · intro ch e f
    rfl
  · intro ch f pre post item vid e h1 h2
    unfold find_live_videos
    exact processItems_stops_at_error ch f item post vid e h1 h2 pre []

/-- A videos-lookup environment for the C6 witness: the lookup for "bad"
raises, every other lookup confirms a live video. -/
def witnessVideosOf : String → Except ApiError (List VideoItem) :=
  fun v => if v = "bad" then Except.error "boom"
           else Except.ok [{ liveBroadcastContent := "live" }]

/-- Witness for C6: with one good candidate followed by a failing lookup, the
scan returns exactly what the good prefix alone yields. -/
theorem find_live_videos_partial_on_error_witness :
    find_live_videos "ch" (Except.ok [⟨some "good"⟩, ⟨some "bad"⟩])
        witnessVideosOf =
      find_live_videos "ch" (Except.ok [⟨some "good"⟩]) witnessVideosOf :=
  find_live_videos_partial_on_error.2 "ch" witnessVideosOf
    [⟨some "good"⟩] [] ⟨some "bad"⟩ "bad" "boom" rfl
    (by simp [witnessVideosOf])

/-- C7 counterexample: `get_video_analytics` also returns `None` on a
successful response whose item list is empty (video not found) — an outcome
the claim's error-or-full-record dichotomy does not cover, since that
response is not an API error. -/
theorem get_video_analytics_none_without_error :
    get_video_analytics (Except.ok ([] : List VideoItem)) = none ∧
    ¬ ∃ e : ApiError,
        (Except.ok ([] : List VideoItem) : Except ApiError (List VideoItem)) =
          Except.error e := by
  refine ⟨rfl, ?_⟩
  rintro ⟨e, h⟩
  exact Except.noConfusion h

/-- C7 (amended): `get_video_analytics` returns `none` exactly on an API
error or an empty response item list; on any response with an item it
returns a full record whose numeric fields default to 0 when the key is
absent; it is a total function of the response, so it never raises. -/
theorem get_video_analytics_characterization :
    (∀ resp : Except ApiError (List VideoItem),
        get_video_analytics resp = none ↔
          (∃ e, resp = Except.error e) ∨ resp = Except.ok []) ∧
    (∀ (item : VideoItem) (rest : List VideoItem),
        ∃ a, get_video_analytics (Except.ok (item :: rest)) = some a ∧
          (item.liveStreamingDetails.concurrentViewers = none →
            a.concurrent_viewers = 0) ∧
          (item.statistics.likeCount = none → a.like_count = 0) ∧
          (item.statistics.commentCount = none → a.comment_count = 0) ∧
          a.scheduled_start = item.liveStreamingDetails.scheduledStartTime ∧
          a.actual_start = item.liveStreamingDetails.actualStartTime) := by
  constructor
  · intro resp
    rcases resp with e | items
    · simp [get_video_analytics]
    · cases items with
      | nil => simp [get_video_analytics]
      | cons item rest => simp [get_video_analytics]
  · intro item rest
    refine ⟨_, rfl, ?_, ?_, ?_, rfl, rfl⟩
    all_goals intro h
    all_goals simp [h]

/-- Witness for C7's amended claim: a response item carrying none of the
numeric keys yields a record with all three metrics 0. -/
theorem get_video_analytics_characterization_witness :
    ∃ a, get_video_analytics (Except.ok [({} : VideoItem)]) = some a ∧
      a.concurrent_viewers = 0 ∧ a.like_count = 0 ∧ a.comment_count = 0 := by
  obtain ⟨a, ha, h1, h2, h3, _, _⟩ :=
    get_video_analytics_characterization.2 ({} : VideoItem) []
  exact ⟨a, ha, h1 rfl, h2 rfl, h3 rfl⟩

/-- C9 counterexample: the storage table name is derived from the channel
display name, not the channel id, and the derivation is not injective: the
distinct names "A B" and "A-B" (hence two distinct channels bearing them)
both map to table "stream_a_b". -/
theorem get_table_name_collision :
    get_table_name "A B" = get_table_name "A-B" ∧
    get_table_name "A B" = "stream_a_b" ∧
    "A B" ≠ "A-B" := by
  refine ⟨?_, ?_, by decide⟩
  · rfl
  · rfl

/-- C9 (amended): the derivation is deterministic — a pure function of the
channel display name, namely `"stream_"` prefixed to the lowercased,
sanitized, collapsed and stripped name — and two names receive the same
table name exactly when they normalize identically; uniqueness holds per
normalized display name, not per channel. -/
theorem get_table_name_deterministic :
    (∀ n : String, get_table_name n = "stream_" ++ normalizedName n) ∧
    (∀ n1 n2 : String,
        get_table_name n1 = get_table_name n2 ↔
          normalizedName n1 = normalizedName n2) := by
  constructor
  · intro n
    rfl
  · intro n1 n2
    constructor
    · intro h
      have hd := congrArg String.data h
      simp only [get_table_name, String.data_append] at hd
      exact String.ext (List.append_cancel_left hd)
    · intro h
      unfold get_table_name
      rw [h]

lemma upsertChannel_fresh (rows : List ChannelRow) (cid nm tbl : String)
    (h : ∀ r ∈ rows, r.channel_id ≠ cid) :
    upsertChannel rows cid nm tbl =
      rows ++ [{ channel_id := cid, channel_name := nm, table_name := tbl }] := by
  unfold upsertChannel
  rw [if_neg]
  rintro ⟨r, hr, hrc⟩
  exact h r hr hrc

lemma upsertChannel_update (rows : List ChannelRow) (cid nm nm' tbl tbl' : String)
    (hfresh : ∀ r ∈ rows, r.channel_id ≠ cid) :
    upsertChannel
        (rows ++ [{ channel_id := cid, channel_name := nm, table_name := tbl }])
        cid nm' tbl' =
      rows ++ [{ channel_id := cid, channel_name := nm', table_name := tbl }] := by
  unfold upsertChannel
  rw [if_pos]
  · rw [List.map_append]
    congr 1
    · calc rows.map _ = rows.map id :=
            List.map_congr_left fun r hr => if_neg (hfresh r hr)
        _ = rows := List.map_id rows
    · simp
  · exact ⟨_, List.mem_append_right _ (List.mem_singleton_self _), rfl⟩

lemma createIfNotExists_self_mem (l : List String) (x : String) :
    x ∈ createIfNotExists l x := by
  unfold createIfNotExists
  split
  · assumption
  · simp

lemma mem_createIfNotExists_of_mem {l : List String} {x : String} (y : String)
    (h : x ∈ l) : x ∈ createIfNotExists l y := by
  unfold createIfNotExists
  split
  · exact h
  · exact List.mem_append_left _ h

lemma createIfNotExists_of_mem {l : List String} {x : String} (h : x ∈ l) :
    createIfNotExists l x = l := by
  unfold createIfNotExists
  rw [if_pos h]

/-- C4 counterexample: provisioning the same channel_id twice with a changed
display name ("Alice", then "Bob") creates a second analytics table —
"stream_bob" next to "stream_alice" — so table/index creation is not
at-most-once per channel. The registry does hold a single row, but its
`table_name` keeps the first table while the second call returns the new
one, so subsequent rows go to a table the registry does not reference. -/
theorem init_channel_table_rename_second_table :
    ((init_channel_table (init_channel_table ⟨[], [], []⟩ "UC1" "Alice").1
        "UC1" "Bob").1).tables = ["stream_alice", "stream_bob"] ∧
    ((init_channel_table (init_channel_table ⟨[], [], []⟩ "UC1" "Alice").1
        "UC1" "Bob").1).tables.length = 2 ∧
    ((init_channel_table (init_channel_table ⟨[], [], []⟩ "UC1" "Alice").1
        "UC1" "Bob").1).channels =
      [{ channel_id := "UC1", channel_name := "Bob",
         table_name := "stream_alice" }] ∧
    (init_channel_table (init_channel_table ⟨[], [], []⟩ "UC1" "Alice").1
        "UC1" "Bob").2 = "stream_bob" :=
  ⟨rfl, rfl, rfl, rfl⟩

/-- C4 (amended): provisioning twice for the same channel_id, when the
derived table name is unchanged (in particular for an unchanged display
name), yields exactly one registry row for that channel — the second call
only updates its display name and keeps its `table_name` — never errors
(the embedding is total), creates no table or index on the second call, and
returns the same table name. -/
theorem init_channel_table_idempotent (db : Db) (cid n1 n2 : String)
    (hfresh : ∀ r ∈ db.channels, r.channel_id ≠ cid)
    (hname : get_table_name n1 = get_table_name n2) :
    ((init_channel_table (init_channel_table db cid n1).1 cid n2).1).channels.filter
        (fun r => r.channel_id == cid) =
      [{ channel_id := cid, channel_name := n2,
         table_name := (init_channel_table db cid n1).2 }] ∧
    ((init_channel_table (init_channel_table db cid n1).1 cid n2).1).tables =
      ((init_channel_table db cid n1).1).tables ∧
    ((init_channel_table (init_channel_table db cid n1).1 cid n2).1).indexes =
      ((init_channel_table db cid n1).1).indexes ∧
    (init_channel_table (init_channel_table db cid n1).1 cid n2).2 =
      (init_channel_table db cid n1).2 := by
  have ht : get_table_name n2 = get_table_name n1 := hname.symm
  simp only [init_channel_table, ht]
  rw [upsertChannel_fresh db.channels cid n1 _ hfresh]
  rw [upsertChannel_update db.channels cid n1 n2 _ _ hfresh]
  refine ⟨?_, ?_, ?_, trivial⟩
  · rw [List.filter_append]
    rw [List.filter_eq_nil_iff.mpr
      (fun r hr => by simp [hfresh r hr])]
    simp
  · exact createIfNotExists_of_mem (createIfNotExists_self_mem _ _)
  · rw [createIfNotExists_of_mem
      (mem_createIfNotExists_of_mem
        ("idx_" ++ get_table_name n1 ++ "_collected_at")
        (createIfNotExists_self_mem db.indexes
          ("idx_" ++ get_table_name n1 ++ "_video_id")))]
    exact createIfNotExists_of_mem (createIfNotExists_self_mem _ _)

/-- Witness for C4's amended claim: provisioning channel "UC1" as "Alice"
and then as "alice" (same derived table name) creates nothing new on the
second call and returns the same table name. -/
theorem init_channel_table_idempotent_witness :
    ((init_channel_table (init_channel_table ⟨[], [], []⟩ "UC1" "Alice").1
        "UC1" "alice").1).tables =
      ((init_channel_table (⟨[], [], []⟩ : Db) "UC1" "Alice").1).tables ∧
    (init_channel_table (init_channel_table ⟨[], [], []⟩ "UC1" "Alice").1
        "UC1" "alice").2 =
      (init_channel_table (⟨[], [], []⟩ : Db) "UC1" "Alice").2 := by
  have h := init_channel_table_idempotent ⟨[], [], []⟩ "UC1" "Alice" "alice"
    (by simp) rfl
  exact ⟨h.2.1, h.2.2.2⟩

lemma mem_keys_dictInsert (d : Registry) (k : String) (v : Stream)
    (x : String) : x ∈ keys (dictInsert d k v) ↔ x ∈ keys d ∨ x = k := by
  unfold dictInsert
  split
  case isTrue hk =>
    simp only [keys, List.map_map, List.mem_map, Function.comp] at *
    constructor
    · rintro ⟨q, hq, hqx⟩
      by_cases hqk : q.1 = k
      · rw [if_pos hqk] at hqx
        exact Or.inr hqx.symm
      · rw [if_neg hqk] at hqx
        exact Or.inl ⟨q, hq, hqx⟩
    · rintro (⟨q, hq, hqx⟩ | rfl)
      · by_cases hqk : q.1 = k
        · exact ⟨q, hq, by rw [if_pos hqk, ← hqx, hqk]⟩
        · exact ⟨q, hq, by rw [if_neg hqk]; exact hqx⟩
      · obtain ⟨q, hq, hqk⟩ := hk
        exact ⟨q, hq, by rw [if_pos hqk]⟩
  case isFalse hk =>
    simp [keys, List.mem_append]

lemma foldl_scanStep_registry (known : Registry) (scanned : List Stream) :
    ∀ (init : Registry × List String) (x : String),
      x ∈ keys (scanned.foldl (scanStep known) init).1 ↔
        x ∈ keys init.1 ∨ ∃ s ∈ scanned, s.video_id = x := by
  induction scanned with
  | nil =>
    intro init x
    simp
  | cons s rest ih =>
    intro init x
    rw [List.foldl_cons, ih (scanStep known init s) x]
    simp only [scanStep]
    rw [mem_keys_dictInsert]
    simp only [List.mem_cons, or_and_right, exists_or, exists_eq_left]
    constructor
    · rintro ((h | h) | h)
      · exact Or.inl h
      · exact Or.inr (Or.inl h.symm)
      · exact Or.inr (Or.inr h)
    · rintro (h | h | h)
      · exact Or.inl (Or.inl h)
      · exact Or.inl (Or.inr h.symm)
      · exact Or.inr h

lemma foldl_scanStep_events (known : Registry) (scanned : List Stream) :
    ∀ (init : Registry × List String) (x : String),
      x ∈ (scanned.foldl (scanStep known) init).2 ↔
        x ∈ init.2 ∨ ((∃ s ∈ scanned, s.video_id = x) ∧ x ∉ keys known) := by
  induction scanned with
  | nil =>
    intro init x
    simp
  | cons s rest ih =>
    intro init x
    rw [List.foldl_cons, ih (scanStep known init s) x]
    simp only [scanStep]
    by_cases hk : s.video_id ∈ keys known
    · rw [if_pos hk]
      simp only [List.mem_cons, or_and_right, exists_or, exists_eq_left]
      constructor
      · rintro (h | h)
        · exact Or.inl h
        · exact Or.inr (Or.inr h)
      · rintro (h | ⟨h1, h2⟩ | h)
        · exact Or.inl h
        · exact absurd (h1 ▸ hk) h2
        · exact Or.inr h
    · rw [if_neg hk]
      simp only [List.mem_append, List.mem_singleton, List.mem_cons,
        List.not_mem_nil, or_false, or_and_right, exists_or, exists_eq_left]
      constructor
      · rintro ((h | h) | h)
        · exact Or.inl h
        · exact Or.inr (Or.inl ⟨h.symm, by rw [h]; exact hk⟩)
        · exact Or.inr (Or.inr h)
      · rintro (h | ⟨h1, h2⟩ | h)
        · exact Or.inl (Or.inl h)
        · exact Or.inl (Or.inr h1.symm)
        · exact Or.inr h

/-- C1: a discovery tick is full-snapshot replacement. After the tick the
registry holds exactly the video_ids of the scan results; a new-stream event
is announced exactly for scanned video_ids absent from the previous
registry; an ended event is logged exactly for previous video_ids absent
from the scan; and an empty scan leaves the registry empty. -/
theorem discovery_tick_full_snapshot :
    ∀ (known : Registry) (scanned : List Stream) (x : String),
      (x ∈ keys (discoveryTick known scanned).registry ↔
        ∃ s ∈ scanned, s.video_id = x) ∧
      (x ∈ (discoveryTick known scanned).newEvents ↔
        (∃ s ∈ scanned, s.video_id = x) ∧ x ∉ keys known) ∧
      (x ∈ (discoveryTick known scanned).endedEvents ↔
        x ∈ keys known ∧ ¬ ∃ s ∈ scanned, s.video_id = x) ∧
      (discoveryTick known []).registry = [] := by
  intro known scanned x
  refine ⟨?_, ?_, ?_, rfl⟩
  · have h := foldl_scanStep_registry known scanned ([], []) x
    simpa [discoveryTick, keys] using h
  · have h := foldl_scanStep_events known scanned ([], []) x
    simpa [discoveryTick] using h
  · simp only [discoveryTick]
    constructor
    · intro hx
      have hm := List.mem_filter.mp hx
      refine ⟨hm.1, ?_⟩
      have hd := of_decide_eq_true hm.2
      intro hex
      exact hd ((foldl_scanStep_registry known scanned ([], []) x).mpr
        (Or.inr hex))
    · rintro ⟨h1, h2⟩
      refine List.mem_filter.mpr ⟨h1, decide_eq_true ?_⟩
      intro hmem
      rcases (foldl_scanStep_registry known scanned ([], []) x).mp hmem with
        h | h
      · simp [keys] at h
      · exact h2 h

end Tracker
